import Mathlib

/-!
Verification of the food-delivery back-office (API Gateway, User Service,
Order Service) against its specification.

The services are shallowly embedded: each HTTP handler of
`src/user-service/server.js`, `src/api-gateway/server.js` and the Order
Service (`src/unnamed/part_001`) becomes a pure Lean function from the
request data and the current store to a response (and, for writes, an
updated store).  JavaScript runtime values appearing in request bodies are
modelled by `JVal` together with JavaScript truthiness; the SQLite tables
are modelled as lists of rows holding the bound values, with the
`NOT NULL` / `UNIQUE` constraints that the services' `CREATE TABLE`
statements declare.  `JSON.stringify` / `JSON.parse` on the `items` column
are modelled character-exactly for the fragment the services produce
(arrays of strings, with full string escaping).
-/

namespace FoodDeliv

/-- JavaScript values as they occur in the services' JSON request bodies:
`null`, booleans, (integral) numbers, strings, and arrays of strings (the
shape of the `items` field).  `undefined` (an absent field) is modelled by
`Option.none` at the use sites. -/
inductive JVal where
  | jnull : JVal
  | jbool : Bool → JVal
  | jnum : Int → JVal
  | jstr : String → JVal
  | jarrs : List String → JVal
deriving DecidableEq

/-- JavaScript truthiness of a value, as used by the services' `if (x)` and
`!x` checks: `null`, `false`, `0` and `""` are falsy; arrays are truthy. -/
def truthy : JVal → Bool
  | .jnull => false
  | .jbool b => b
  | .jnum n => n != 0
  | .jstr s => s != ""
  | .jarrs _ => true

/-- Truthiness of a possibly absent (`undefined`) field: `undefined` is falsy. -/
def truthyOpt : Option JVal → Bool
  | none => false
  | some v => truthy v

/-- Lower-case hexadecimal digit character, as produced by `JSON.stringify`
in `\u00xx` escapes. -/
def hexDigitChar (n : Nat) : Char :=
  if n < 10 then Char.ofNat (48 + n) else Char.ofNat (87 + n)

/-- Escaping of one character by `JSON.stringify`: `"` and `\` get a
backslash escape, the named control characters become `\b`, `\t`, `\n`,
`\f`, `\r`, the remaining control characters become `\u00xx`, and every
other character is emitted unchanged. -/
def escapeChar (c : Char) : List Char :=
  if c = '"' then ['\\', '"']
  else if c = '\\' then ['\\', '\\']
  else if c = Char.ofNat 8 then ['\\', 'b']
  else if c = Char.ofNat 9 then ['\\', 't']
  else if c = Char.ofNat 10 then ['\\', 'n']
  else if c = Char.ofNat 12 then ['\\', 'f']
  else if c = Char.ofNat 13 then ['\\', 'r']
  else if c.toNat < 32 then
    ['\\', 'u', '0', '0', hexDigitChar (c.toNat / 16), hexDigitChar (c.toNat % 16)]
  else [c]

/-- `JSON.stringify` escaping of a whole string (as a character list). -/
def escapeStr : List Char → List Char
  | [] => []
  | c :: t => escapeChar c ++ escapeStr t

/-- Decoding of a single-character JSON escape (`\x` for `x` one of
`" \ / b t n f r`); `\u` is handled separately by the string reader. -/
def escChar? (e : Char) : Option Char :=
  if e = '"' then some '"'
  else if e = '\\' then some '\\'
  else if e = '/' then some '/'
  else if e = 'b' then some (Char.ofNat 8)
  else if e = 't' then some (Char.ofNat 9)
  else if e = 'n' then some (Char.ofNat 10)
  else if e = 'f' then some (Char.ofNat 12)
  else if e = 'r' then some (Char.ofNat 13)
  else none

/-- Value of a hexadecimal digit character (either case), as accepted by
`JSON.parse` in `\uXXXX` escapes. -/
def hexVal? (c : Char) : Option Nat :=
  if 48 ≤ c.toNat ∧ c.toNat ≤ 57 then some (c.toNat - 48)
  else if 97 ≤ c.toNat ∧ c.toNat ≤ 102 then some (c.toNat - 87)
  else if 65 ≤ c.toNat ∧ c.toNat ≤ 70 then some (c.toNat - 55)
  else none

/-- JSON string-literal reader: given the characters following an opening
quote, returns the decoded contents and the characters following the
closing quote, or `none` on malformed input (as `JSON.parse` would throw). -/
def parseJString : List Char → Option (List Char × List Char)
  | [] => none
  | c :: rest =>
    if c = '"' then some ([], rest)
    else if c = '\\' then
      match rest with
      | [] => none
      | e :: rest2 =>
        if e = 'u' then
          match rest2 with
          | h1 :: h2 :: h3 :: h4 :: rest3 =>
            match hexVal? h1, hexVal? h2, hexVal? h3, hexVal? h4 with
            | some a, some b, some c2, some d =>
              match parseJString rest3 with
              | some (s, r) => some (Char.ofNat (4096 * a + 256 * b + 16 * c2 + d) :: s, r)
              | none => none
            | _, _, _, _ => none
          | _ => none
        else
          match escChar? e with
          | some d =>
            match parseJString rest2 with
            | some (s, r) => some (d :: s, r)
            | none => none
          | none => none
    else
      match parseJString rest with
      | some (s, r) => some (c :: s, r)
      | none => none

/-- Characters of a JSON string literal for `s` (quotes included),
exactly as `JSON.stringify` emits it. -/
def quoteChars (s : String) : List Char :=
  '"' :: (escapeStr s.data ++ ['"'])

/-- Characters of the element list of `JSON.stringify` applied to a
non-empty array of strings, from the first element up to and including the
closing bracket: elements are separated by commas, with no whitespace. -/
def itemsTail : List String → List Char
  | [] => [']']
  | [x] => quoteChars x ++ [']']
  | x :: y :: t => quoteChars x ++ (',' :: itemsTail (y :: t))

/-- `JSON.stringify` applied to an array of strings. -/
def encodeStrList (xs : List String) : String :=
  match xs with
  | [] => String.mk ['[', ']']
  | x :: t => String.mk ('[' :: itemsTail (x :: t))

/-- Fuelled reader for the elements of a JSON array of strings, positioned
at the opening quote of the first element; consumes through the closing
bracket.  The fuel bounds the number of elements, so passing the length of
the remaining input is always sufficient. -/
def parseElems : Nat → List Char → Option (List String × List Char)
  | 0, _ => none
  | fuel + 1, l =>
    match l with
    | [] => none
    | c :: rest =>
      if c = '"' then
        match parseJString rest with
        | some (s, r) =>
          match r with
          | [] => none
          | c2 :: r2 =>
            if c2 = ',' then
              match parseElems fuel r2 with
              | some (xs, r3) => some (String.mk s :: xs, r3)
              | none => none
            else if c2 = ']' then some ([String.mk s], r2)
            else none
        | none => none
      else none

/-- `JSON.parse` restricted to the shape the Order Service ever stores in
the `items` column (a JSON array of strings, as written by
`JSON.stringify`); any other input yields `none`. -/
def jsonParseStrArray (t : String) : Option (List String) :=
  match t.data with
  | [] => none
  | c :: rest =>
    if c = '[' then
      if rest = [']'] then some []
      else
        match parseElems rest.length rest with
        | some (xs, []) => some xs
        | _ => none
    else none

/-- `JSON.stringify` on the modelled JavaScript values. -/
def jsonStringify : JVal → String
  | .jnull => "null"
  | .jbool true => "true"
  | .jbool false => "false"
  | .jnum n => toString n
  | .jstr s => String.mk (quoteChars s)
  | .jarrs xs => encodeStrList xs

/-- Value of a decimal digit character. -/
def digitVal? (c : Char) : Option Nat :=
  if 48 ≤ c.toNat ∧ c.toNat ≤ 57 then some (c.toNat - 48) else none

/-- Accumulating decimal reader. -/
def parseDecAux : List Char → Nat → Option Nat
  | [], acc => some acc
  | c :: t, acc =>
    match digitVal? c with
    | some d => parseDecAux t (10 * acc + d)
    | none => none

/-- Reading a non-empty all-digit string as a natural number.  This models
how an `id` path parameter (always a string in Express) is matched by
SQLite against an `INTEGER PRIMARY KEY` column: a numeric string compares
equal to the corresponding integer, anything else matches no row. -/
def parseDec? (s : String) : Option Nat :=
  match s.data with
  | [] => none
  | l => parseDecAux l 0

/-- JavaScript template-literal interpolation of a value, as used when the
Order Service builds the outbound URL `/users/(order.userId)`. -/
def userParamOfJVal : JVal → String
  | .jnull => "null"
  | .jbool true => "true"
  | .jbool false => "false"
  | .jnum n => toString n
  | .jstr s => s
  | .jarrs xs => String.intercalate "," xs

/-- An optionally signed decimal integer literal, rendered canonically:
`intLiteral? s = some n` exactly when `s` is a well-formed integer literal
denoting `n`. -/
def intLiteral? (s : String) : Option Int :=
  match s.data with
  | '-' :: ds =>
    match parseDec? (String.mk ds) with
    | some n => some (-(n : Int))
    | none => none
  | _ =>
    match parseDec? s with
    | some n => some ((n : Int))
    | none => none

/-- SQLite INTEGER column affinity applied to a bound value (the orders
table declares `user_id` and `total_price` as `INTEGER`,
`src/unnamed/part_001` lines 39 and 42): a text value is converted to the
integer it denotes when the conversion is lossless and reversible (the
text is the canonical rendering of that integer, e.g. the text `0` is
stored as the integer 0); every other value is stored as bound. -/
def integerAffinity (v : JVal) : JVal :=
  match v with
  | .jstr s =>
    match intLiteral? s with
    | some n => if toString n = s then .jnum n else .jstr s
    | none => .jstr s
  | _ => v

/-- SQLite TEXT column affinity applied to a bound value (the orders table
declares `restaurant_name`, `items` and `status` as `TEXT`): a numeric
value is converted to its text rendering; every other value is stored as
bound. -/
def textAffinity (v : JVal) : JVal :=
  match v with
  | .jnum n => .jstr (toString n)
  | _ => v

/-- Row of the `orders` table (`src/unnamed/part_001` lines 36-45).
`id` is the `INTEGER PRIMARY KEY AUTOINCREMENT`; the other columns hold the
values the service bound when inserting or updating, and `created_at` the
timestamp the store assigned. -/
structure OrderRow where
  id : Nat
  user_id : JVal
  restaurant_name : JVal
  items : JVal
  total_price : JVal
  status : JVal
  created_at : String
deriving DecidableEq

/-- Result of `parseOrderRow` (`src/unnamed/part_001` lines 225-234): the
spread keeps every storage column, `items` is replaced by its
`JSON.parse`, and the four camel-case aliases are added. -/
structure ParsedOrder where
  id : Nat
  user_id : JVal
  restaurant_name : JVal
  items : Option (List String)
  total_price : JVal
  status : JVal
  created_at : String
  totalPrice : JVal
  userId : JVal
  restaurantName : JVal
  createdAt : String
deriving DecidableEq

/-- `JSON.parse` of the stored `items` column text. -/
def itemsOfStored : JVal → Option (List String)
  | .jstr t => jsonParseStrArray t
  | _ => none

/-- Helper `parseOrderRow` of the Order Service (`src/unnamed/part_001`
lines 225-234): re-shape a storage row into its external form. -/
def parseOrderRow (row : OrderRow) : ParsedOrder :=
  { id := row.id
    user_id := row.user_id
    restaurant_name := row.restaurant_name
    items := itemsOfStored row.items
    total_price := row.total_price
    status := row.status
    created_at := row.created_at
    totalPrice := row.total_price
    userId := row.user_id
    restaurantName := row.restaurant_name
    createdAt := row.created_at }

/-- The `orders` store: its rows (in insertion order, so ascending by the
auto-assigned `id`) and the next `AUTOINCREMENT` id. -/
structure OrderStore where
  rows : List OrderRow
  nextId : Nat
deriving DecidableEq

/-- Row of the `users` table (`src/user-service/server.js` lines 34-42).
All four data columns are declared `NOT NULL` and `email` is `UNIQUE`. -/
structure UserRow where
  id : Nat
  name : JVal
  email : JVal
  phone : JVal
  address : JVal
  created_at : String
deriving DecidableEq

/-- HTTP response envelope: success with a status and a `data` payload, or
failure with a status and a `message`. -/
inductive Resp (α : Type) where
  | ok : Nat → α → Resp α
  | fail : Nat → String → Resp α
deriving DecidableEq

/-- Status code of a response. -/
def respStatus {α : Type} : Resp α → Nat
  | .ok st _ => st
  | .fail st _ => st

/-- `SELECT * FROM orders WHERE id = ?` with the (textual) path parameter
bound against the integer primary key. -/
def findOrderRow (rows : List OrderRow) (idStr : String) : Option OrderRow :=
  match parseDec? idStr with
  | some n => rows.find? (fun r => r.id == n)
  | none => none

/-- `SELECT * FROM users WHERE id = ?`, as above. -/
def findUserRow (users : List UserRow) (idStr : String) : Option UserRow :=
  match parseDec? idStr with
  | some n => users.find? (fun u => u.id == n)
  | none => none

/-- User Service `GET /users/:id` (`src/user-service/server.js` lines
215-235): 404 when no row matches, otherwise the row itself as `data`. -/
def userServiceGetUserById (users : List UserRow) (idStr : String) : Resp UserRow :=
  match findUserRow users idStr with
  | none => .fail 404 "User tidak ditemukan"
  | some row => .ok 200 row

/-- Comparison of the stored `user_id` value against the `?userId=` query
string, as SQLite evaluates `user_id = ?` on the INTEGER-affinity column. -/
def userIdMatches (v : JVal) (q : String) : Bool :=
  match v, parseDec? q with
  | .jnum n, some m => n == (m : Int)
  | _, _ => false

/-- Order Service `GET /orders` (`src/unnamed/part_001` lines 237-263):
optional equality filter on `user_id` when the `userId` query parameter is
present (and truthy), rows ordered by `id` descending, each row re-shaped
by `parseOrderRow`. -/
def ordersGetAll (s : OrderStore) (userIdQ : Option String) : Resp (List ParsedOrder) :=
  let rows :=
    match userIdQ with
    | some q => if q = "" then s.rows else s.rows.filter (fun r => userIdMatches r.user_id q)
    | none => s.rows
  .ok 200 (rows.reverse.map parseOrderRow)

/-- Order Service `GET /orders/:id` (`src/unnamed/part_001` lines
265-287): 404 when no row matches, otherwise the re-shaped row. -/
def orderGetById (s : OrderStore) (idStr : String) : Resp ParsedOrder :=
  match findOrderRow s.rows idStr with
  | none => .fail 404 "Order tidak ditemukan"
  | some row => .ok 200 (parseOrderRow row)

/-- Payload of the composite read: the re-shaped order plus the
`userDetails` object decoded from the User Service response. -/
structure OrderWithUser where
  order : ParsedOrder
  userDetails : UserRow
deriving DecidableEq

/-- Order Service `GET /orders/:id/with-user` (`src/unnamed/part_001`
lines 290-336).  Stage one reads the order locally and returns 404 if it
is absent.  Stage two issues the outbound
`GET (USER_SERVICE_URL)/users/(order.userId)`; on success the decoded
`data` object is merged as `userDetails`, on any axios failure (such as the
404 of a missing user) the request fails 500.  The second component lists
the user-id parameters of the outbound calls made, so that the absence of
an outbound call is observable. -/
def orderGetWithUser (s : OrderStore) (users : List UserRow) (idStr : String) :
    Resp OrderWithUser × List String :=
  match findOrderRow s.rows idStr with
  | none => (.fail 404 "Order tidak ditemukan", [])
  | some row =>
    let order := parseOrderRow row
    let uidParam := userParamOfJVal order.userId
    match userServiceGetUserById users uidParam with
    | .ok _ u => (.ok 200 ⟨order, u⟩, [uidParam])
    | .fail _ _ => (.fail 500 "Gagal mengambil data user", [uidParam])

/-- Body of `POST /orders`.  The handler destructures only the four
required fields; a `status` supplied by the client is carried here to show
it is ignored. -/
structure OrderPostBody where
  userId : Option JVal
  restaurantName : Option JVal
  items : Option JVal
  totalPrice : Option JVal
  status : Option JVal
deriving DecidableEq

/-- Order Service `POST /orders` (`src/unnamed/part_001` lines 338-379):
reject 400 when any of the four destructured fields is falsy (which
includes absent); otherwise insert a row with `items` stringified, the
status literal `'pending'`, the next auto-increment id and the store
timestamp, then answer 201 with the re-shaped row read back by id. -/
def orderPost (s : OrderStore) (now : String) (b : OrderPostBody) :
    Resp ParsedOrder × OrderStore :=
  if truthyOpt b.userId && truthyOpt b.restaurantName
      && truthyOpt b.items && truthyOpt b.totalPrice then
    let row : OrderRow :=
      { id := s.nextId
        user_id := b.userId.getD .jnull
        restaurant_name := b.restaurantName.getD .jnull
        items := .jstr (jsonStringify (b.items.getD .jnull))
        total_price := b.totalPrice.getD .jnull
        status := .jstr "pending"
        created_at := now }
    (.ok 201 (parseOrderRow row), { rows := s.rows ++ [row], nextId := s.nextId + 1 })
  else (.fail 400 "Semua field wajib diisi", s)

/-- Body of `PUT /orders/:id` (the four recognized fields). -/
structure OrderPutBody where
  status : Option JVal
  restaurantName : Option JVal
  items : Option JVal
  totalPrice : Option JVal
deriving DecidableEq

/-- Effect on one row of the dynamically assembled `UPDATE` of
`PUT /orders/:id` (`src/unnamed/part_001` lines 384-403): each recognized
field is written exactly when its supplied value is truthy, with `items`
stringified; every other column keeps its value.  The stored value is the
bound one after the column's SQLite affinity: `total_price` is an
`INTEGER` column, so a truthy numeric text such as `0` is stored as the
integer 0; the three written `TEXT` columns render numbers as text. -/
def applyOrderUpdates (b : OrderPutBody) (r : OrderRow) : OrderRow :=
  { id := r.id
    user_id := r.user_id
    restaurant_name :=
      if truthyOpt b.restaurantName then
        textAffinity (b.restaurantName.getD r.restaurant_name)
      else r.restaurant_name
    items :=
      if truthyOpt b.items then
        textAffinity (.jstr (jsonStringify (b.items.getD .jnull)))
      else r.items
    total_price :=
      if truthyOpt b.totalPrice then
        integerAffinity (b.totalPrice.getD r.total_price)
      else r.total_price
    status :=
      if truthyOpt b.status then textAffinity (b.status.getD r.status) else r.status
    created_at := r.created_at }

/-- Whether the dynamic update list of `PUT /orders/:id` is non-empty,
i.e. at least one recognized field was supplied with a truthy value. -/
def hasOrderUpdates (b : OrderPutBody) : Bool :=
  truthyOpt b.status || truthyOpt b.restaurantName
    || truthyOpt b.items || truthyOpt b.totalPrice

/-- Order Service `PUT /orders/:id` (`src/unnamed/part_001` lines
381-446): 400 before touching the store when no recognized field is
truthy; otherwise run the assembled `UPDATE ... WHERE id = ?` (404 when it
changes no row) and answer 200 with the updated row re-read by the same
id, which — ids being unique — is the updated row re-shaped. -/
def orderPut (s : OrderStore) (idStr : String) (b : OrderPutBody) :
    Resp ParsedOrder × OrderStore :=
  if hasOrderUpdates b then
    match findOrderRow s.rows idStr with
    | none => (.fail 404 "Order tidak ditemukan", s)
    | some row =>
      let rows' := s.rows.map (fun r => if r.id == row.id then applyOrderUpdates b r else r)
      (.ok 200 (parseOrderRow (applyOrderUpdates b row)),
        { rows := rows', nextId := s.nextId })
  else (.fail 400 "Tidak ada field yang diupdate", s)

/-- Body of `PUT /users/:id` (all four fields optional; the handler does
not validate them). -/
structure UserPutBody where
  name : Option JVal
  email : Option JVal
  phone : Option JVal
  address : Option JVal
deriving DecidableEq

/-- User Service `PUT /users/:id` (`src/user-service/server.js` lines
276-312).  The handler runs
`UPDATE users SET name = ?, email = ?, phone = ?, address = ? WHERE id = ?`
with no validation: a missing body field is destructured as `undefined`
and bound as SQL `NULL`.  When the `UPDATE` matches no row it changed
nothing and the handler answers 404.  When it matches a row, the table
constraints apply: any `NULL` among the four bound values violates the
`NOT NULL` declarations, and an email equal to another row's violates
`UNIQUE`; either way the store reports an error, the handler answers 500
and the row keeps its previous values.  Otherwise all four columns are
replaced and the handler answers 200 with the row re-read by id. -/
def usersPut (users : List UserRow) (idStr : String) (b : UserPutBody) :
    Resp UserRow × List UserRow :=
  match findUserRow users idStr with
  | none => (.fail 404 "User tidak ditemukan", users)
  | some row =>
    let bn := b.name.getD .jnull
    let be := b.email.getD .jnull
    let bp := b.phone.getD .jnull
    let ba := b.address.getD .jnull
    if bn == JVal.jnull || be == JVal.jnull || bp == JVal.jnull || ba == JVal.jnull
        || users.any (fun u => decide (u.id ≠ row.id) && decide (u.email = be)) then
      (.fail 500 "Error updating user", users)
    else
      let row' : UserRow :=
        { id := row.id, name := bn, email := be, phone := bp, address := ba
          created_at := row.created_at }
      (.ok 200 row',
        users.map (fun u =>
          if u.id == row.id then
            { id := u.id, name := bn, email := be, phone := bp, address := ba
              created_at := u.created_at }
          else u))

/-- The ten proxied routes of the API Gateway
(`src/api-gateway/server.js` lines 228-359). -/
inductive GatewayRoute where
  | getUsers
  | getUserById
  | postUsers
  | putUserById
  | deleteUserById
  | getOrders
  | getOrderById
  | getOrderWithUser
  | postOrders
  | putOrderById
deriving DecidableEq

/-- The data the Gateway's catch blocks can see of a failed axios call:
the upstream HTTP status when the backend answered with an error status,
`none` when no response arrived (network error). -/
structure AxiosErr where
  responseStatus : Option Nat
deriving DecidableEq

/-- The JavaScript expression `error.response?.status || 500`:
the upstream status if present and truthy, else 500. -/
def jsOr500 (st : Option Nat) : Nat :=
  match st with
  | some s => if s = 0 then 500 else s
  | none => 500

/-- Response status of each Gateway route as a function of the upstream
call's outcome, read off handler by handler from
`src/api-gateway/server.js`: on success the posts answer 201 and everything
else 200; on failure `GET /api/users/:id` (line 246),
`GET /api/orders/:id` (line 314) and `GET /api/orders/:id/with-user`
(line 327) answer `error.response?.status || 500`, and every other route
answers a literal 500. -/
def gatewayStatus (r : GatewayRoute) (u : Except AxiosErr Unit) : Nat :=
  match u with
  | .ok _ =>
    match r with
    | .postUsers => 201
    | .postOrders => 201
    | _ => 200
  | .error e =>
    match r with
    | .getUsers => 500
    | .getUserById => jsOr500 e.responseStatus
    | .postUsers => 500
    | .putUserById => 500
    | .deleteUserById => 500
    | .getOrders => 500
    | .getOrderById => jsOr500 e.responseStatus
    | .getOrderWithUser => jsOr500 e.responseStatus
    | .postOrders => 500
    | .putOrderById => 500

/-- The three single-resource GET routes named by the specification as the
ones that propagate the upstream status. -/
def isSingleResourceGet : GatewayRoute → Bool
  | .getUserById => true
  | .getOrderById => true
  | .getOrderWithUser => true
  | _ => false

/-! ### Round trip of the `items` JSON codec -/

theorem parseJString_quote (l : List Char) : parseJString ('"' :: l) = some ([], l) := by
  rw [parseJString.eq_def]
  dsimp only
  rw [if_pos rfl]

theorem parseJString_plain (c : Char) (h1 : c ≠ '"') (h2 : c ≠ '\\') (l : List Char) :
    parseJString (c :: l) =
      match parseJString l with
      | some (s, r) => some (c :: s, r)
      | none => none := by
  rw [parseJString.eq_def]
  dsimp only
  rw [if_neg h1, if_neg h2]

theorem parseJString_esc (e d : Char) (he : e ≠ 'u') (hd : escChar? e = some d)
    (l : List Char) :
    parseJString ('\\' :: e :: l) =
      match parseJString l with
      | some (s, r) => some (d :: s, r)
      | none => none := by
  rw [parseJString.eq_def]
  dsimp only
  rw [if_neg (show ('\\' : Char) ≠ '"' from by decide), if_pos rfl, if_neg he, hd]

theorem parseJString_u (h1 h2 h3 h4 : Char) (a b c2 d : Nat)
    (ha : hexVal? h1 = some a) (hb : hexVal? h2 = some b)
    (hc : hexVal? h3 = some c2) (hd : hexVal? h4 = some d) (l : List Char) :
    parseJString ('\\' :: 'u' :: h1 :: h2 :: h3 :: h4 :: l) =
      match parseJString l with
      | some (s, r) => some (Char.ofNat (4096 * a + 256 * b + 16 * c2 + d) :: s, r)
      | none => none := by
  rw [parseJString.eq_def]
  dsimp only
  rw [if_neg (show ('\\' : Char) ≠ '"' from by decide), if_pos rfl, if_pos rfl,
    ha, hb, hc, hd]

theorem hexVal_hexDigitChar : ∀ n : Nat, n < 16 → hexVal? (hexDigitChar n) = some n := by
  decide

/-- `JSON.parse`'s string reader inverts `JSON.stringify`'s escaping. -/
theorem parseJString_escapeStr (s : List Char) : ∀ rest : List Char,
    parseJString (escapeStr s ++ ('"' :: rest)) = some (s, rest) := by
  induction s with
  | nil =>
    intro rest
    simpa [escapeStr] using parseJString_quote rest
  | cons c t ih =>
    intro rest
    show parseJString ((escapeChar c ++ escapeStr t) ++ ('"' :: rest)) = some (c :: t, rest)
    rw [List.append_assoc]
    by_cases h1 : c = '"'
    · subst h1
      rw [show escapeChar '"' = ['\\', '"'] from by decide]
      show parseJString ('\\' :: '"' :: (escapeStr t ++ ('"' :: rest))) = _
      rw [parseJString_esc '"' '"' (by decide) (by decide), ih rest]
    · by_cases h2 : c = '\\'
      · subst h2
        rw [show escapeChar '\\' = ['\\', '\\'] from by decide]
        show parseJString ('\\' :: '\\' :: (escapeStr t ++ ('"' :: rest))) = _
        rw [parseJString_esc '\\' '\\' (by decide) (by decide), ih rest]
      · by_cases h3 : c = Char.ofNat 8
        · subst h3
          rw [show escapeChar (Char.ofNat 8) = ['\\', 'b'] from by decide]
          show parseJString ('\\' :: 'b' :: (escapeStr t ++ ('"' :: rest))) = _
          rw [parseJString_esc 'b' (Char.ofNat 8) (by decide) (by decide), ih rest]
        · by_cases h4 : c = Char.ofNat 9
          · subst h4
            rw [show escapeChar (Char.ofNat 9) = ['\\', 't'] from by decide]
            show parseJString ('\\' :: 't' :: (escapeStr t ++ ('"' :: rest))) = _
            rw [parseJString_esc 't' (Char.ofNat 9) (by decide) (by decide), ih rest]
          · by_cases h5 : c = Char.ofNat 10
            · subst h5
              rw [show escapeChar (Char.ofNat 10) = ['\\', 'n'] from by decide]
              show parseJString ('\\' :: 'n' :: (escapeStr t ++ ('"' :: rest))) = _
              rw [parseJString_esc 'n' (Char.ofNat 10) (by decide) (by decide), ih rest]
            · by_cases h6 : c = Char.ofNat 12
              · subst h6
                rw [show escapeChar (Char.ofNat 12) = ['\\', 'f'] from by decide]
                show parseJString ('\\' :: 'f' :: (escapeStr t ++ ('"' :: rest))) = _
                rw [parseJString_esc 'f' (Char.ofNat 12) (by decide) (by decide), ih rest]
              · by_cases h7 : c = Char.ofNat 13
                · subst h7
                  rw [show escapeChar (Char.ofNat 13) = ['\\', 'r'] from by decide]
                  show parseJString ('\\' :: 'r' :: (escapeStr t ++ ('"' :: rest))) = _
                  rw [parseJString_esc 'r' (Char.ofNat 13) (by decide) (by decide), ih rest]
                · by_cases h8 : c.toNat < 32
                  · have he : escapeChar c =
                        ['\\', 'u', '0', '0', hexDigitChar (c.toNat / 16),
                          hexDigitChar (c.toNat % 16)] := by
                      unfold escapeChar
                      rw [if_neg h1, if_neg h2, if_neg h3, if_neg h4, if_neg h5, if_neg h6,
                        if_neg h7, if_pos h8]
                    rw [he]
                    show parseJString ('\\' :: 'u' :: '0' :: '0' ::
                      hexDigitChar (c.toNat / 16) :: hexDigitChar (c.toNat % 16) ::
                      (escapeStr t ++ ('"' :: rest))) = _
                    rw [parseJString_u '0' '0' (hexDigitChar (c.toNat / 16))
                      (hexDigitChar (c.toNat % 16)) 0 0 (c.toNat / 16) (c.toNat % 16)
                      (by decide) (by decide)
                      (hexVal_hexDigitChar _ (by omega))
                      (hexVal_hexDigitChar _ (Nat.mod_lt _ (by norm_num))), ih rest]
                    have hv : 4096 * 0 + 256 * 0 + 16 * (c.toNat / 16) + c.toNat % 16
                        = c.toNat := by omega
                    rw [hv, Char.ofNat_toNat]
                  · have he : escapeChar c = [c] := by
                      unfold escapeChar
                      rw [if_neg h1, if_neg h2, if_neg h3, if_neg h4, if_neg h5, if_neg h6,
                        if_neg h7, if_neg h8]
                    rw [he]
                    show parseJString (c :: (escapeStr t ++ ('"' :: rest))) = _
                    rw [parseJString_plain c h1 h2, ih rest]

theorem quoteChars_length (x : String) : 2 ≤ (quoteChars x).length := by
  simp [quoteChars]

theorem itemsTail_cons_length (x : String) (xs : List String) :
    xs.length < (itemsTail (x :: xs)).length := by
  induction xs generalizing x with
  | nil =>
    simp [itemsTail]
  | cons y t ih =>
    have h1 := ih y
    have h2 := quoteChars_length x
    show t.length + 1 < (quoteChars x ++ (',' :: itemsTail (y :: t))).length
    simp only [List.length_append, List.length_cons]
    omega

theorem parseElems_step (fuel : Nat) (l : List Char) :
    parseElems (fuel + 1) ('"' :: l) =
      match parseJString l with
      | some (s, r) =>
        match r with
        | [] => none
        | c2 :: r2 =>
          if c2 = ',' then
            match parseElems fuel r2 with
            | some (xs, r3) => some (String.mk s :: xs, r3)
            | none => none
          else if c2 = ']' then some ([String.mk s], r2)
          else none
      | none => none := by
  rw [parseElems.eq_def]
  dsimp only
  rw [if_pos rfl]

theorem parseElems_itemsTail (xs : List String) : ∀ (x : String) (fuel : Nat)
    (rest : List Char), xs.length < fuel →
    parseElems fuel (itemsTail (x :: xs) ++ rest) = some (x :: xs, rest) := by
  induction xs with
  | nil =>
    intro x fuel rest hf
    obtain ⟨f, rfl⟩ : ∃ f, fuel = f + 1 := ⟨fuel - 1, by omega⟩
    have e1 : itemsTail [x] ++ rest
        = '"' :: (escapeStr x.data ++ ('"' :: (']' :: rest))) := by
      simp [itemsTail, quoteChars]
    rw [e1, parseElems_step, parseJString_escapeStr x.data (']' :: rest)]
    dsimp only
    rw [if_neg (show (']' : Char) ≠ ',' from by decide), if_pos rfl]
  | cons y t ih =>
    intro x fuel rest hf
    obtain ⟨f, rfl⟩ : ∃ f, fuel = f + 1 := ⟨fuel - 1, by omega⟩
    have e1 : itemsTail (x :: y :: t) ++ rest
        = '"' :: (escapeStr x.data ++ ('"' :: (',' :: (itemsTail (y :: t) ++ rest)))) := by
      simp [itemsTail, quoteChars]
    rw [e1, parseElems_step,
      parseJString_escapeStr x.data (',' :: (itemsTail (y :: t) ++ rest))]
    dsimp only
    have hf2 : t.length < f := by
      simp only [List.length_cons] at hf
      omega
    rw [if_pos rfl, ih y f rest hf2]

theorem itemsTail_cons_head (x : String) (xs : List String) :
    ∃ l, itemsTail (x :: xs) = '"' :: l := by
  cases xs with
  | nil => exact ⟨escapeStr x.data ++ ['"'] ++ [']'], by simp [itemsTail, quoteChars]⟩
  | cons y t =>
    exact ⟨escapeStr x.data ++ ['"'] ++ (',' :: itemsTail (y :: t)),
      by simp [itemsTail, quoteChars]⟩

/-- Round trip of the `items` codec: `JSON.parse` inverts `JSON.stringify`
on any array of strings. -/
theorem jsonParseStrArray_mk (c : Char) (rest : List Char) :
    jsonParseStrArray (String.mk (c :: rest)) =
      (if c = '[' then
        if rest = [']'] then some []
        else
          match parseElems rest.length rest with
          | some (xs, []) => some xs
          | _ => none
      else none) := rfl

theorem jsonParseStrArray_encode (xs : List String) :
    jsonParseStrArray (encodeStrList xs) = some xs := by
  cases xs with
  | nil => rfl
  | cons x t =>
    obtain ⟨l, hl⟩ := itemsTail_cons_head x t
    show jsonParseStrArray (String.mk ('[' :: itemsTail (x :: t))) = some (x :: t)
    rw [jsonParseStrArray_mk, if_pos rfl, if_neg (by rw [hl]; simp)]
    have hp : parseElems (itemsTail (x :: t)).length (itemsTail (x :: t))
        = some (x :: t, []) := by
      have h := parseElems_itemsTail t x (itemsTail (x :: t)).length []
        (itemsTail_cons_length x t)
      rwa [List.append_nil] at h
    rw [hp]

/-! ### Concrete sample data used by the witnesses -/

/-- A stored order (the first seed row of `src/unnamed/part_001`). -/
def sampleOrderRow : OrderRow :=
  { id := 1
    user_id := .jnum 1
    restaurant_name := .jstr "Nasi Goreng Kambing"
    items := .jstr (jsonStringify (.jarrs ["Nasi Goreng Kambing", "Es Teh Manis"]))
    total_price := .jnum 45000
    status := .jstr "delivered"
    created_at := "2024-01-01 00:00:00" }

/-- Order store containing the single sample row. -/
def sampleOrders : OrderStore := { rows := [sampleOrderRow], nextId := 2 }

/-- A stored user (the first seed row of `src/user-service/server.js`). -/
def sampleUserRow : UserRow :=
  { id := 1
    name := .jstr "John Doe"
    email := .jstr "john@example.com"
    phone := .jstr "081234567890"
    address := .jstr "Jl. Sudirman No. 1, Jakarta"
    created_at := "2024-01-01 00:00:00" }

/-- User table containing the single sample row. -/
def sampleUsers : List UserRow := [sampleUserRow]

/-! ### Claims -/

/-- Claim C1: for every order id present in the store whose referenced user
exists in the User Service, `GET /orders/:id/with-user` returns success with
the order's fields plus a field `userDetails` whose value equals the `data`
object that `GET /users/(order.userId)` returns. -/
theorem claim1_composite_read_success (s : OrderStore) (users : List UserRow)
    (idStr : String) (row : OrderRow) (u : UserRow)
    (hrow : findOrderRow s.rows idStr = some row)
    (huser : userServiceGetUserById users (userParamOfJVal (parseOrderRow row).userId)
      = .ok 200 u) :
    (orderGetWithUser s users idStr).1 = .ok 200 ⟨parseOrderRow row, u⟩ := by
  unfold orderGetWithUser
  rw [hrow]
  dsimp only
  rw [huser]

/-- Witness for C1 at the sample stores: order 1 references user 1, and the
composite read returns that order together with user 1's row. -/
theorem claim1_witness :
    (orderGetWithUser sampleOrders sampleUsers "1").1
      = .ok 200 ⟨parseOrderRow sampleOrderRow, sampleUserRow⟩ :=
  claim1_composite_read_success sampleOrders sampleUsers "1" sampleOrderRow
    sampleUserRow rfl rfl

/-- Claim C2: for every order id absent from the store,
`GET /orders/:id/with-user` returns 404 with no outbound call to the User
Service, and an outbound call is made only when the local read found the
order. -/
theorem claim2_no_call_when_absent (s : OrderStore) (users : List UserRow)
    (idStr : String) :
    (findOrderRow s.rows idStr = none →
      orderGetWithUser s users idStr = (.fail 404 "Order tidak ditemukan", [])) ∧
    ((orderGetWithUser s users idStr).2 ≠ [] →
      ∃ row, findOrderRow s.rows idStr = some row) := by
  constructor
  · intro h
    unfold orderGetWithUser
    rw [h]
  · intro h
    cases hf : findOrderRow s.rows idStr with
    | some row => exact ⟨row, rfl⟩
    | none =>
      exfalso
      apply h
      unfold orderGetWithUser
      rw [hf]

/-- Witness for C2: id 9 is absent from the sample store, so the composite
read answers 404 with an empty outbound-call list; for id 1 the call list is
non-empty and indeed the local read finds a row. -/
theorem claim2_witness :
    orderGetWithUser sampleOrders sampleUsers "9"
      = (.fail 404 "Order tidak ditemukan", []) ∧
    ∃ row, findOrderRow sampleOrders.rows "1" = some row := by
  constructor
  · exact (claim2_no_call_when_absent sampleOrders sampleUsers "9").1 rfl
  · exact (claim2_no_call_when_absent sampleOrders sampleUsers "1").2 (by decide)

/-- Claim C3: when an upstream call fails with an HTTP error status, the
Gateway propagates the status only for `GET /api/users/:id`,
`GET /api/orders/:id` and `GET /api/orders/:id/with-user`; every other
proxied route answers 500 regardless of the upstream outcome. -/
theorem claim3_gateway_error_status (r : GatewayRoute) (e : AxiosErr) (st : Nat)
    (hs : e.responseStatus = some st) (h0 : 0 < st) :
    gatewayStatus r (.error e) = (if isSingleResourceGet r then st else 500) ∧
    (isSingleResourceGet r = false →
      ∀ e2 : AxiosErr, gatewayStatus r (.error e2) = 500) := by
  have hne : st ≠ 0 := by omega
  cases r <;>
    simp [gatewayStatus, isSingleResourceGet, jsOr500, hs, hne]

/-- Witness for C3: an upstream 404 is propagated by `GET /api/users/:id`
and coerced to 500 by `PUT /api/users/:id`. -/
theorem claim3_witness :
    gatewayStatus .getUserById (.error ⟨some 404⟩) = 404 ∧
    gatewayStatus .putUserById (.error ⟨some 404⟩) = 500 := by
  constructor
  · have h := (claim3_gateway_error_status .getUserById ⟨some 404⟩ 404 rfl
      (by decide)).1
    simpa using h
  · exact (claim3_gateway_error_status .putUserById ⟨some 404⟩ 404 rfl
      (by decide)).2 rfl ⟨some 404⟩

/-- A row returned by `SELECT ... WHERE id = ?` is a row of the table. -/
theorem findOrderRow_mem {rows : List OrderRow} {idStr : String} {row : OrderRow}
    (h : findOrderRow rows idStr = some row) : row ∈ rows := by
  unfold findOrderRow at h
  cases hp : parseDec? idStr with
  | none => rw [hp] at h; exact absurd h (by simp)
  | some n => rw [hp] at h; exact List.mem_of_find?_eq_some h

/-- Claim C4: every order row returned by any Order Service endpoint is the
re-shape of a stored row by `parseOrderRow`, and `parseOrderRow` presents
`user_id`, `restaurant_name`, `total_price`, `created_at` as `userId`,
`restaurantName`, `totalPrice`, `createdAt` and JSON-decodes the stored
`items` text back to the sequence of strings it encodes. -/
theorem claim4_reshape :
    (∀ row : OrderRow,
      (parseOrderRow row).userId = row.user_id ∧
      (parseOrderRow row).restaurantName = row.restaurant_name ∧
      (parseOrderRow row).totalPrice = row.total_price ∧
      (parseOrderRow row).createdAt = row.created_at ∧
      ∀ xs : List String, row.items = .jstr (encodeStrList xs) →
        (parseOrderRow row).items = some xs) ∧
    (∀ (s : OrderStore) (q : Option String) (os : List ParsedOrder) (o : ParsedOrder),
      ordersGetAll s q = .ok 200 os → o ∈ os →
      ∃ row ∈ s.rows, o = parseOrderRow row) ∧
    (∀ (s : OrderStore) (idStr : String) (st : Nat) (o : ParsedOrder),
      orderGetById s idStr = .ok st o → ∃ row ∈ s.rows, o = parseOrderRow row) ∧
    (∀ (s : OrderStore) (users : List UserRow) (idStr : String) (st : Nat)
      (d : OrderWithUser), (orderGetWithUser s users idStr).1 = .ok st d →
      ∃ row ∈ s.rows, d.order = parseOrderRow row) ∧
    (∀ (s s' : OrderStore) (now : String) (b : OrderPostBody) (st : Nat)
      (o : ParsedOrder), orderPost s now b = (.ok st o, s') →
      ∃ row ∈ s'.rows, o = parseOrderRow row) ∧
    (∀ (s s' : OrderStore) (idStr : String) (b : OrderPutBody) (st : Nat)
      (o : ParsedOrder), orderPut s idStr b = (.ok st o, s') →
      ∃ row ∈ s'.rows, o = parseOrderRow row) := by
  refine ⟨?_, ?_, ?_, ?_, ?_, ?_⟩
  · intro row
    refine ⟨rfl, rfl, rfl, rfl, ?_⟩
    intro xs hx
    show itemsOfStored row.items = some xs
    rw [hx]
    show jsonParseStrArray (encodeStrList xs) = some xs
    exact jsonParseStrArray_encode xs
  · intro s q os o hok ho
    unfold ordersGetAll at hok
    cases hok
    obtain ⟨row, hrow, hmap⟩ := List.mem_map.mp ho
    refine ⟨row, ?_, hmap.symm⟩
    rw [List.mem_reverse] at hrow
    cases q with
    | none => exact hrow
    | some qs =>
      dsimp only at hrow
      by_cases hq : qs = ""
      · simpa [hq] using hrow
      · rw [if_neg hq] at hrow
        exact (List.mem_filter.mp hrow).1
  · intro s idStr st o hok
    unfold orderGetById at hok
    cases hf : findOrderRow s.rows idStr with
    | none => rw [hf] at hok; exact absurd hok (by simp)
    | some row =>
      rw [hf] at hok
      refine ⟨row, findOrderRow_mem hf, ?_⟩
      cases hok
      rfl
  · intro s users idStr st d hok
    unfold orderGetWithUser at hok
    cases hf : findOrderRow s.rows idStr with
    | none => rw [hf] at hok; exact absurd hok (by simp)
    | some row =>
      rw [hf] at hok
      dsimp only at hok
      cases hu : userServiceGetUserById users
          (userParamOfJVal (parseOrderRow row).userId) with
      | ok st2 u =>
        rw [hu] at hok
        refine ⟨row, findOrderRow_mem hf, ?_⟩
        cases hok
        rfl
      | fail st2 m =>
        rw [hu] at hok
        exact absurd hok (by simp)
  · intro s s' now b st o hok
    unfold orderPost at hok
    by_cases hv : (truthyOpt b.userId && truthyOpt b.restaurantName
        && truthyOpt b.items && truthyOpt b.totalPrice) = true
    · rw [if_pos hv] at hok
      injection hok with hfst hsnd
      injection hfst with hst ho
      refine ⟨_, ?_, ho.symm⟩
      rw [← hsnd]
      simp
    · rw [if_neg hv] at hok
      injection hok with hfst hsnd
      exact absurd hfst (by simp)
  · intro s s' idStr b st o hok
    unfold orderPut at hok
    by_cases hu : hasOrderUpdates b = true
    · rw [if_pos hu] at hok
      cases hf : findOrderRow s.rows idStr with
      | none => rw [hf] at hok; injection hok with hfst hsnd; exact absurd hfst (by simp)
      | some row =>
        rw [hf] at hok
        dsimp only at hok
        injection hok with hfst hsnd
        injection hfst with hst ho
        refine ⟨applyOrderUpdates b row, ?_, ho.symm⟩
        rw [← hsnd]
        show applyOrderUpdates b row ∈ s.rows.map
          (fun r => if r.id == row.id then applyOrderUpdates b r else r)
        refine List.mem_map.mpr ⟨row, findOrderRow_mem hf, ?_⟩
        rw [if_pos (by simp)]
    · rw [if_neg hu] at hok
      injection hok with hfst hsnd
      exact absurd hfst (by simp)

/-- Body of a sample `POST /orders`. -/
def samplePostBody : OrderPostBody :=
  { userId := some (.jnum 2)
    restaurantName := some (.jstr "Ayam Geprek Bensu")
    items := some (.jarrs ["Ayam Geprek Level 5", "Jus Alpukat"])
    totalPrice := some (.jnum 35000)
    status := none }

/-- The row `samplePostBody` inserts into `sampleOrders`. -/
def samplePostedRow : OrderRow :=
  { id := 2
    user_id := .jnum 2
    restaurant_name := .jstr "Ayam Geprek Bensu"
    items := .jstr (jsonStringify (.jarrs ["Ayam Geprek Level 5", "Jus Alpukat"]))
    total_price := .jnum 35000
    status := .jstr "pending"
    created_at := "2024-01-02 00:00:00" }

/-- Body of a sample `PUT /orders/1` that updates only the status. -/
def samplePutBody : OrderPutBody :=
  { status := some (.jstr "cancelled")
    restaurantName := none
    items := none
    totalPrice := none }

/-- The sample row after `samplePutBody` is applied. -/
def sampleUpdatedRow : OrderRow := { sampleOrderRow with status := .jstr "cancelled" }

/-- Witness for C4: each endpoint conjunct applied at the sample store. -/
theorem claim4_witness :
    (parseOrderRow sampleOrderRow).userId = sampleOrderRow.user_id ∧
    (parseOrderRow sampleOrderRow).items
      = some ["Nasi Goreng Kambing", "Es Teh Manis"] ∧
    (∃ row ∈ ({ rows := [sampleOrderRow, samplePostedRow], nextId := 3 } :
        OrderStore).rows, parseOrderRow samplePostedRow = parseOrderRow row) ∧
    (∃ row ∈ sampleOrders.rows, parseOrderRow sampleOrderRow = parseOrderRow row) ∧
    (∃ row ∈ sampleOrders.rows,
      (OrderWithUser.mk (parseOrderRow sampleOrderRow) sampleUserRow).order
        = parseOrderRow row) ∧
    (∃ row ∈ ({ rows := [sampleOrderRow, samplePostedRow], nextId := 3 } :
        OrderStore).rows, parseOrderRow samplePostedRow = parseOrderRow row) ∧
    (∃ row ∈ ({ rows := [sampleUpdatedRow], nextId := 2 } : OrderStore).rows,
      parseOrderRow sampleUpdatedRow = parseOrderRow row) := by
  refine ⟨?_, ?_, ?_, ?_, ?_, ?_, ?_⟩
  · exact (claim4_reshape.1 sampleOrderRow).1
  · exact (claim4_reshape.1 sampleOrderRow).2.2.2.2
      ["Nasi Goreng Kambing", "Es Teh Manis"] rfl
  · exact claim4_reshape.2.1 { rows := [sampleOrderRow, samplePostedRow], nextId := 3 }
      none [parseOrderRow samplePostedRow, parseOrderRow sampleOrderRow]
      (parseOrderRow samplePostedRow) rfl (by simp)
  · exact claim4_reshape.2.2.1 sampleOrders "1" 200 (parseOrderRow sampleOrderRow) rfl
  · exact claim4_reshape.2.2.2.1 sampleOrders sampleUsers "1" 200
      ⟨parseOrderRow sampleOrderRow, sampleUserRow⟩ rfl
  · exact claim4_reshape.2.2.2.2.1 sampleOrders
      { rows := [sampleOrderRow, samplePostedRow], nextId := 3 }
      "2024-01-02 00:00:00" samplePostBody 201 (parseOrderRow samplePostedRow) rfl
  · exact claim4_reshape.2.2.2.2.2 sampleOrders
      { rows := [sampleUpdatedRow], nextId := 2 } "1" samplePutBody 200
      (parseOrderRow sampleUpdatedRow) rfl

/-- A `POST /orders` body that supplies all four required fields but a
`totalPrice` of 0, which JavaScript treats as falsy. -/
def zeroPriceBody : OrderPostBody :=
  { userId := some (.jnum 1)
    restaurantName := some (.jstr "Warung Tegal")
    items := some (.jarrs ["Nasi Rames"])
    totalPrice := some (.jnum 0)
    status := none }

/-- Counterexample to C5 as stated: this body supplies all four required
fields, yet `POST /orders` rejects it with 400, because the handler's
`!totalPrice` check uses JavaScript truthiness and `0` is falsy. -/
theorem claim5_counterexample :
    zeroPriceBody.userId ≠ none ∧ zeroPriceBody.restaurantName ≠ none ∧
    zeroPriceBody.items ≠ none ∧ zeroPriceBody.totalPrice ≠ none ∧
    orderPost { rows := [], nextId := 1 } "2024-01-01 00:00:00" zeroPriceBody
      = (.fail 400 "Semua field wajib diisi", { rows := [], nextId := 1 }) :=
  ⟨by decide, by decide, by decide, by decide, rfl⟩

/-- Claim C5 (amended): `POST /orders` fails 400 exactly when at least one
of the four required fields is missing or supplied with a JavaScript-falsy
value (`0`, the empty string, `null`, `false`); every body whose four
fields are all present and truthy passes validation and proceeds to the
insert, which appends exactly one row and bumps the auto-increment id. -/
theorem claim5_validation (s : OrderStore) (now : String) (b : OrderPostBody) :
    ((orderPost s now b).1 = .fail 400 "Semua field wajib diisi" ↔
      ¬((truthyOpt b.userId && truthyOpt b.restaurantName && truthyOpt b.items
        && truthyOpt b.totalPrice) = true)) ∧
    ((truthyOpt b.userId && truthyOpt b.restaurantName && truthyOpt b.items
        && truthyOpt b.totalPrice) = true →
      ∃ o : ParsedOrder, (orderPost s now b).1 = .ok 201 o ∧
        (orderPost s now b).2.rows = s.rows ++
          [{ id := s.nextId
             user_id := b.userId.getD .jnull
             restaurant_name := b.restaurantName.getD .jnull
             items := .jstr (jsonStringify (b.items.getD .jnull))
             total_price := b.totalPrice.getD .jnull
             status := .jstr "pending"
             created_at := now }] ∧
        (orderPost s now b).2.nextId = s.nextId + 1) := by
  unfold orderPost
  by_cases hv : (truthyOpt b.userId && truthyOpt b.restaurantName && truthyOpt b.items
      && truthyOpt b.totalPrice) = true
  · rw [if_pos hv]
    refine ⟨by simp [hv], fun _ => ⟨_, rfl, rfl, rfl⟩⟩
  · rw [if_neg hv]
    exact ⟨by simp [hv], fun h => absurd h hv⟩

/-- Witness for C5: the zero-price body is rejected 400 even on an empty
store, and the all-truthy `samplePostBody` passes validation and inserts
`samplePostedRow`. -/
theorem claim5_witness :
    (orderPost { rows := [], nextId := 1 } "t" zeroPriceBody).1
      = .fail 400 "Semua field wajib diisi" ∧
    ∃ o, (orderPost sampleOrders "2024-01-02 00:00:00" samplePostBody).1
        = .ok 201 o ∧
      (orderPost sampleOrders "2024-01-02 00:00:00" samplePostBody).2.rows
        = sampleOrders.rows ++ [samplePostedRow] ∧
      (orderPost sampleOrders "2024-01-02 00:00:00" samplePostBody).2.nextId
        = sampleOrders.nextId + 1 := by
  constructor
  · exact (claim5_validation { rows := [], nextId := 1 } "t" zeroPriceBody).1.mpr
      (by decide)
  · exact (claim5_validation sampleOrders "2024-01-02 00:00:00" samplePostBody).2
      (by decide)

/-- After an insert, reading the new id back finds exactly the new row,
provided every pre-existing id is below the auto-increment counter. -/
theorem findOrderRow_append_new (s : OrderStore) (nr : OrderRow) (idStr : String)
    (hids : ∀ r ∈ s.rows, r.id < s.nextId) (hnr : nr.id = s.nextId)
    (hid : parseDec? idStr = some s.nextId) :
    findOrderRow (s.rows ++ [nr]) idStr = some nr := by
  unfold findOrderRow
  rw [hid]
  dsimp only
  rw [List.find?_append]
  have hnone : s.rows.find? (fun r => r.id == s.nextId) = none := by
    refine List.find?_eq_none.mpr fun r hr => ?_
    simp only [beq_iff_eq]
    exact Nat.ne_of_lt (hids r hr)
  rw [hnone]
  simp [List.find?, hnr]

/-- Claim C6: for every successfully created order, the stored and
read-back status is `pending`, regardless of any status value supplied in
the POST body. -/
theorem claim6_status_pending (s : OrderStore) (now : String) (b : OrderPostBody)
    (o : ParsedOrder) (s' : OrderStore) (idStr : String)
    (hids : ∀ r ∈ s.rows, r.id < s.nextId)
    (hpost : orderPost s now b = (.ok 201 o, s'))
    (hid : parseDec? idStr = some s.nextId) :
    o.status = .jstr "pending" ∧
    ∃ row, findOrderRow s'.rows idStr = some row ∧ row.status = .jstr "pending" ∧
      orderGetById s' idStr = .ok 200 (parseOrderRow row) ∧
      (parseOrderRow row).status = .jstr "pending" := by
  unfold orderPost at hpost
  by_cases hv : (truthyOpt b.userId && truthyOpt b.restaurantName && truthyOpt b.items
      && truthyOpt b.totalPrice) = true
  · rw [if_pos hv] at hpost
    injection hpost with h1 h2
    injection h1 with _ ho
    subst ho
    subst h2
    refine ⟨rfl, ?_⟩
    have hfind := findOrderRow_append_new s
      { id := s.nextId
        user_id := b.userId.getD .jnull
        restaurant_name := b.restaurantName.getD .jnull
        items := .jstr (jsonStringify (b.items.getD .jnull))
        total_price := b.totalPrice.getD .jnull
        status := .jstr "pending"
        created_at := now } idStr hids rfl hid
    refine ⟨_, hfind, rfl, ?_, rfl⟩
    unfold orderGetById
    rw [hfind]
  · rw [if_neg hv] at hpost
    injection hpost with h1 _
    exact absurd h1 (by simp)

/-- Body of a sample POST that tries to smuggle in a status. -/
def statusPostBody : OrderPostBody :=
  { userId := some (.jnum 2)
    restaurantName := some (.jstr "Sate Padang Ajo Ramon")
    items := some (.jarrs ["Sate Padang"])
    totalPrice := some (.jnum 50000)
    status := some (.jstr "delivered") }

/-- Witness for C6: posting `statusPostBody` (which supplies a status of
`delivered`) to the sample store creates an order whose stored and
read-back status is `pending`. -/
theorem claim6_witness :
    (parseOrderRow
      { id := 2
        user_id := .jnum 2
        restaurant_name := .jstr "Sate Padang Ajo Ramon"
        items := .jstr (jsonStringify (.jarrs ["Sate Padang"]))
        total_price := .jnum 50000
        status := .jstr "pending"
        created_at := "2024-01-03 00:00:00" }).status = .jstr "pending" ∧
    ∃ row, findOrderRow
        ({ rows := [sampleOrderRow,
          { id := 2
            user_id := .jnum 2
            restaurant_name := .jstr "Sate Padang Ajo Ramon"
            items := .jstr (jsonStringify (.jarrs ["Sate Padang"]))
            total_price := .jnum 50000
            status := .jstr "pending"
            created_at := "2024-01-03 00:00:00" }], nextId := 3 } :
          OrderStore).rows "2" = some row ∧
      row.status = .jstr "pending" ∧
      orderGetById
        { rows := [sampleOrderRow,
          { id := 2
            user_id := .jnum 2
            restaurant_name := .jstr "Sate Padang Ajo Ramon"
            items := .jstr (jsonStringify (.jarrs ["Sate Padang"]))
            total_price := .jnum 50000
            status := .jstr "pending"
            created_at := "2024-01-03 00:00:00" }], nextId := 3 } "2"
        = .ok 200 (parseOrderRow row) ∧
      (parseOrderRow row).status = .jstr "pending" := by
  exact claim6_status_pending sampleOrders "2024-01-03 00:00:00" statusPostBody _ _
    "2" (by decide) rfl rfl

/-- Claim C7: order items round-trip.  For any sequence `xs` of strings
supplied as `items` on `POST /orders`, the created order and a subsequent
GET of it report `items = xs`: `JSON.stringify` on write composed with
`JSON.parse` on read is the identity. -/
theorem claim7_items_roundtrip (s : OrderStore) (now : String) (b : OrderPostBody)
    (xs : List String) (o : ParsedOrder) (s' : OrderStore) (idStr : String)
    (hxs : b.items = some (.jarrs xs))
    (hpost : orderPost s now b = (.ok 201 o, s'))
    (hids : ∀ r ∈ s.rows, r.id < s.nextId)
    (hid : parseDec? idStr = some s.nextId) :
    jsonParseStrArray (encodeStrList xs) = some xs ∧
    o.items = some xs ∧
    ∃ row, orderGetById s' idStr = .ok 200 (parseOrderRow row) ∧
      (parseOrderRow row).items = some xs := by
  unfold orderPost at hpost
  by_cases hv : (truthyOpt b.userId && truthyOpt b.restaurantName && truthyOpt b.items
      && truthyOpt b.totalPrice) = true
  · rw [if_pos hv] at hpost
    injection hpost with h1 h2
    injection h1 with _ ho
    subst ho
    subst h2
    refine ⟨jsonParseStrArray_encode xs, ?_, ?_⟩
    · show itemsOfStored (.jstr (jsonStringify (b.items.getD .jnull))) = some xs
      rw [hxs]
      exact jsonParseStrArray_encode xs
    · have hfind := findOrderRow_append_new s
        { id := s.nextId
          user_id := b.userId.getD .jnull
          restaurant_name := b.restaurantName.getD .jnull
          items := .jstr (jsonStringify (b.items.getD .jnull))
          total_price := b.totalPrice.getD .jnull
          status := .jstr "pending"
          created_at := now } idStr hids rfl hid
      refine ⟨{ id := s.nextId
                user_id := b.userId.getD .jnull
                restaurant_name := b.restaurantName.getD .jnull
                items := .jstr (jsonStringify (b.items.getD .jnull))
                total_price := b.totalPrice.getD .jnull
                status := .jstr "pending"
                created_at := now }, ?_, ?_⟩
      · unfold orderGetById
        rw [hfind]
      · show itemsOfStored (.jstr (jsonStringify (b.items.getD .jnull))) = some xs
        rw [hxs]
        exact jsonParseStrArray_encode xs
  · rw [if_neg hv] at hpost
    injection hpost with h1 _
    exact absurd h1 (by simp)

/-- A POST body whose items exercise the JSON escaping (a quote, a
backslash and a newline). -/
def trickyBody : OrderPostBody :=
  { userId := some (.jnum 1)
    restaurantName := some (.jstr "Warung")
    items := some (.jarrs ["a\"b\\c", "line1\nline2"])
    totalPrice := some (.jnum 5)
    status := none }

/-- The row `trickyBody` inserts into the empty store. -/
def trickyRow : OrderRow :=
  { id := 1
    user_id := .jnum 1
    restaurant_name := .jstr "Warung"
    items := .jstr (jsonStringify (.jarrs ["a\"b\\c", "line1\nline2"]))
    total_price := .jnum 5
    status := .jstr "pending"
    created_at := "2024-01-04 00:00:00" }

/-- Witness for C7 on items containing a quote, a backslash and a control
character. -/
theorem claim7_witness :
    jsonParseStrArray (encodeStrList ["a\"b\\c", "line1\nline2"])
      = some ["a\"b\\c", "line1\nline2"] ∧
    (parseOrderRow trickyRow).items = some ["a\"b\\c", "line1\nline2"] ∧
    ∃ row, orderGetById { rows := [trickyRow], nextId := 2 } "1"
        = .ok 200 (parseOrderRow row) ∧
      (parseOrderRow row).items = some ["a\"b\\c", "line1\nline2"] := by
  exact claim7_items_roundtrip { rows := [], nextId := 1 } "2024-01-04 00:00:00"
    trickyBody ["a\"b\\c", "line1\nline2"] (parseOrderRow trickyRow)
    { rows := [trickyRow], nextId := 2 } "1" rfl rfl (by simp) rfl

/-- A `PUT /users/1` body that omits `address`. -/
def missingAddressBody : UserPutBody :=
  { name := some (.jstr "Budi Santoso")
    email := some (.jstr "budi@example.com")
    phone := some (.jstr "081234567892")
    address := none }

/-- Counterexample to C8 as stated: with `address` missing from the body,
the handler binds `NULL` for it, the `NOT NULL` constraint on the column
rejects the `UPDATE`, and the request fails 500 with the row unchanged —
the four mutable fields are not replaced and no null is stored. -/
theorem claim8_counterexample :
    missingAddressBody.name ≠ none ∧ missingAddressBody.email ≠ none ∧
    missingAddressBody.phone ≠ none ∧ missingAddressBody.address = none ∧
    usersPut sampleUsers "1" missingAddressBody
      = (.fail 500 "Error updating user", sampleUsers) ∧
    sampleUserRow.address ≠ .jnull :=
  ⟨by decide, by decide, by decide, rfl, rfl, by decide⟩

/-- Claim C8 (amended): `PUT /users/:id` performs no body validation and
never returns 400; it binds each of the four mutable fields to the supplied
value with missing fields bound as SQL null.  When the matched row exists,
all four supplied values are non-null and the email does not collide with
another row's, the row's four fields are unconditionally replaced with the
supplied values; when any bound value is null, the `NOT NULL` constraints
make the store reject the update, the request fails 500 and the store is
unchanged. -/
theorem claim8_put_users (users : List UserRow) (idStr : String) (b : UserPutBody) :
    respStatus (usersPut users idStr b).1 ≠ 400 ∧
    (∀ row : UserRow, findUserRow users idStr = some row →
      (∀ vn ve vp va : JVal, b.name = some vn → b.email = some ve →
        b.phone = some vp → b.address = some va →
        vn ≠ .jnull → ve ≠ .jnull → vp ≠ .jnull → va ≠ .jnull →
        (∀ u ∈ users, u.id ≠ row.id → u.email ≠ ve) →
        usersPut users idStr b =
          (.ok 200
            { id := row.id
              name := vn
              email := ve
              phone := vp
              address := va
              created_at := row.created_at },
            users.map fun u =>
              if u.id == row.id then
                { id := u.id
                  name := vn
                  email := ve
                  phone := vp
                  address := va
                  created_at := u.created_at }
              else u)) ∧
      ((b.name.getD .jnull = .jnull ∨ b.email.getD .jnull = .jnull ∨
        b.phone.getD .jnull = .jnull ∨ b.address.getD .jnull = .jnull) →
        usersPut users idStr b = (.fail 500 "Error updating user", users))) := by
  constructor
  · unfold usersPut
    cases hf : findUserRow users idStr with
    | none => simp [respStatus]
    | some row =>
      dsimp only
      by_cases hc : (b.name.getD .jnull == JVal.jnull
          || b.email.getD .jnull == JVal.jnull
          || b.phone.getD .jnull == JVal.jnull
          || b.address.getD .jnull == JVal.jnull
          || users.any fun u => decide (u.id ≠ row.id)
              && decide (u.email = b.email.getD .jnull)) = true
      · rw [if_pos hc]
        simp [respStatus]
      · rw [if_neg hc]
        simp [respStatus]
  · intro row hf
    constructor
    · intro vn ve vp va hn he hp ha hn0 he0 hp0 ha0 huniq
      unfold usersPut
      rw [hf]
      dsimp only
      rw [hn, he, hp, ha]
      dsimp only [Option.getD_some]
      rw [if_neg ?hcond]
      case hcond =>
        simp only [Bool.or_eq_true, beq_iff_eq, List.any_eq_true, Bool.and_eq_true,
          decide_eq_true_eq, not_or]
        refine ⟨⟨⟨⟨hn0, he0⟩, hp0⟩, ha0⟩, ?_⟩
        rintro ⟨u, hu, hne, hemail⟩
        exact huniq u hu hne hemail
    · intro hnull
      unfold usersPut
      rw [hf]
      dsimp only
      rw [if_pos ?hcond2]
      case hcond2 =>
        simp only [Bool.or_eq_true, beq_iff_eq]
        rcases hnull with h | h | h | h
        · exact Or.inl (Or.inl (Or.inl (Or.inl h)))
        · exact Or.inl (Or.inl (Or.inl (Or.inr h)))
        · exact Or.inl (Or.inl (Or.inr h))
        · exact Or.inl (Or.inr h)

/-- A `PUT /users/1` body that supplies all four fields. -/
def fullUserBody : UserPutBody :=
  { name := some (.jstr "John Q. Doe")
    email := some (.jstr "johnq@example.com")
    phone := some (.jstr "081200000000")
    address := some (.jstr "Jl. Baru No. 2, Jakarta") }

/-- Witness for C8 (amended): no 400 is possible, a full body replaces all
four fields of user 1, and the missing-address body fails 500 with the
store unchanged. -/
theorem claim8_witness :
    respStatus (usersPut sampleUsers "1" fullUserBody).1 ≠ 400 ∧
    usersPut sampleUsers "1" fullUserBody
      = (.ok 200
          { id := 1, name := .jstr "John Q. Doe", email := .jstr "johnq@example.com",
            phone := .jstr "081200000000",
            address := .jstr "Jl. Baru No. 2, Jakarta",
            created_at := "2024-01-01 00:00:00" },
         [{ id := 1, name := .jstr "John Q. Doe",
            email := .jstr "johnq@example.com", phone := .jstr "081200000000",
            address := .jstr "Jl. Baru No. 2, Jakarta",
            created_at := "2024-01-01 00:00:00" }]) ∧
    usersPut sampleUsers "1" missingAddressBody
      = (.fail 500 "Error updating user", sampleUsers) := by
  refine ⟨(claim8_put_users sampleUsers "1" fullUserBody).1, ?_, ?_⟩
  · exact ((claim8_put_users sampleUsers "1" fullUserBody).2 sampleUserRow rfl).1
      (.jstr "John Q. Doe") (.jstr "johnq@example.com") (.jstr "081200000000")
      (.jstr "Jl. Baru No. 2, Jakarta") rfl rfl rfl rfl
      (by decide) (by decide) (by decide) (by decide) (by decide)
  · exact ((claim8_put_users sampleUsers "1" missingAddressBody).2 sampleUserRow rfl).2
      (Or.inr (Or.inr (Or.inr rfl)))

/-- Claim C9: for `PUT /orders/:id`, fields absent from the body are left
unchanged in the stored row, and a body that supplies none of the four
recognized fields returns 400 before any store operation — the store is
unchanged and the response does not depend on the store at all. -/
theorem claim9_put_frame (s : OrderStore) (idStr : String) (b : OrderPutBody) :
    ((b.status = none ∧ b.restaurantName = none ∧ b.items = none ∧
        b.totalPrice = none) →
      orderPut s idStr b = (.fail 400 "Tidak ada field yang diupdate", s) ∧
      ∀ s2 : OrderStore, (orderPut s2 idStr b).1 = (orderPut s idStr b).1) ∧
    (∀ row : OrderRow, hasOrderUpdates b = true →
      findOrderRow s.rows idStr = some row →
      orderPut s idStr b =
        (.ok 200 (parseOrderRow (applyOrderUpdates b row)),
          { rows := s.rows.map fun r =>
              if r.id == row.id then applyOrderUpdates b r else r
            nextId := s.nextId }) ∧
      (b.status = none → (applyOrderUpdates b row).status = row.status) ∧
      (b.restaurantName = none →
        (applyOrderUpdates b row).restaurant_name = row.restaurant_name) ∧
      (b.items = none → (applyOrderUpdates b row).items = row.items) ∧
      (b.totalPrice = none →
        (applyOrderUpdates b row).total_price = row.total_price) ∧
      (applyOrderUpdates b row).id = row.id ∧
      (applyOrderUpdates b row).user_id = row.user_id ∧
      (applyOrderUpdates b row).created_at = row.created_at) := by
  constructor
  · rintro ⟨h1, h2, h3, h4⟩
    have hu : hasOrderUpdates b = false := by
      simp [hasOrderUpdates, h1, h2, h3, h4, truthyOpt]
    constructor
    · unfold orderPut
      rw [if_neg (by simp [hu])]
    · intro s2
      unfold orderPut
      rw [if_neg (by simp [hu]), if_neg (by simp [hu])]
  · intro row hu hf
    refine ⟨?_, ?_, ?_, ?_, ?_, rfl, rfl, rfl⟩
    · unfold orderPut
      rw [if_pos hu, hf]
    · intro h
      simp [applyOrderUpdates, h, truthyOpt]
    · intro h
      simp [applyOrderUpdates, h, truthyOpt]
    · intro h
      simp [applyOrderUpdates, h, truthyOpt]
    · intro h
      simp [applyOrderUpdates, h, truthyOpt]

/-- Witness for C9: the empty body is rejected 400 on the sample store with
the same response on a different store, and a status-only body leaves the
other three columns of row 1 unchanged. -/
theorem claim9_witness :
    (orderPut sampleOrders "1"
        { status := none, restaurantName := none, items := none,
          totalPrice := none }
      = (.fail 400 "Tidak ada field yang diupdate", sampleOrders) ∧
      ∀ s2 : OrderStore, (orderPut s2 "1"
          { status := none, restaurantName := none, items := none,
            totalPrice := none }).1
        = (orderPut sampleOrders "1"
            { status := none, restaurantName := none, items := none,
              totalPrice := none }).1) ∧
    ((applyOrderUpdates samplePutBody sampleOrderRow).restaurant_name
        = sampleOrderRow.restaurant_name ∧
      (applyOrderUpdates samplePutBody sampleOrderRow).items
        = sampleOrderRow.items ∧
      (applyOrderUpdates samplePutBody sampleOrderRow).total_price
        = sampleOrderRow.total_price) := by
  constructor
  · exact (claim9_put_frame sampleOrders "1"
      { status := none, restaurantName := none, items := none,
        totalPrice := none }).1 ⟨rfl, rfl, rfl, rfl⟩
  · have h := (claim9_put_frame sampleOrders "1" samplePutBody).2 sampleOrderRow
      (by decide) rfl
    exact ⟨h.2.2.1 rfl, h.2.2.2.1 rfl, h.2.2.2.2.1 rfl⟩

end FoodDeliv

